import Mathlib

/-!
Verification of the probability-transition / harmonic-analysis core of the
`option_analysis` repository.  The Python source in
`src/core/probability_analyzer.py`, `src/core/harmonic_analyzer.py` and
`main_scheduler.py` is shallowly embedded below: returns and prices are
rationals, numpy arrays become `Fin`-indexed functions or lists, and Python
slicing / pandas quantiles are modelled exactly.
-/

/- Batteries marks the `Rat` field operations irreducible; re-allow unfolding
so that concrete rational computations can be settled by `decide`. -/
attribute [local semireducible] Rat.add Rat.sub Rat.mul Rat.inv Rat.ofScientific

/-- Python sequence-index normalisation for `l[a:b]` slicing: a negative
index is taken from the end (`n + i`, clamped below at 0), a non-negative
index is clamped above at `n`. -/
def pyIdx (n : ℕ) (i : ℤ) : ℕ :=
  if i < 0 then ((n : ℤ) + i).toNat else min i.toNat n

/-- Python slice `l[a:b]` (with both endpoints present; `l[a:]` is
`pySlice l a l.length`). -/
def pySlice {α : Type} (l : List α) (a b : ℤ) : List α :=
  (l.take (pyIdx l.length b)).drop (pyIdx l.length a)

/-- `self.data["pct_chg"].values[-window_size:]` versus
`self.data["pct_chg"].values[-window_size-1:-1]` in
`create_first_order_matrix` / `create_second_order_matrix`
(`probability_analyzer.py` lines 98-104 and 137-143). -/
def recentData (data : List ℚ) (windowSize : ℕ) (includeToday : Bool) : List ℚ :=
  if includeToday then pySlice data (-(windowSize : ℤ)) data.length
  else pySlice data (-(windowSize : ℤ) - 1) (-1)

/-- Insert a value into an ascending-sorted list, keeping it sorted. -/
def insertAsc (x : ℚ) : List ℚ → List ℚ
  | [] => [x]
  | y :: t => if x ≤ y then x :: y :: t else y :: insertAsc x t

/-- Ascending insertion sort (the sort underlying the quantile computation). -/
def sortAsc (l : List ℚ) : List ℚ := l.foldr insertAsc []

/-- pandas `Series.quantile(q)` with the default linear interpolation:
sort ascending, let `pos = q * (n - 1)`, and interpolate between the two
neighbouring order statistics. -/
def quantile (l : List ℚ) (q : ℚ) : ℚ :=
  let s := sortAsc l
  let pos : ℚ := q * ((l.length : ℚ) - 1)
  let i : ℕ := (Rat.floor pos).toNat
  let frac : ℚ := pos - (i : ℚ)
  let vi := s.getD i 0
  let vi1 := s.getD (i + 1) vi
  vi + (vi1 - vi) * frac

/-- The five quantile levels used by `_calculate_thresholds`. -/
def quantileLevels : Fin 5 → ℚ := ![1/10, 1/4, 1/2, 3/4, 9/10]

/-- The raw quantile thresholds, before the mid boundary is overwritten
(`probability_analyzer.py` line 60). -/
def rawThresholds (data : List ℚ) : Fin 5 → ℚ :=
  fun i => quantile data (quantileLevels i)

/-- `_calculate_thresholds`: the five quantiles of `pct_chg`, with
`thresholds[2] = 0` forced afterwards (`probability_analyzer.py`
lines 57-62). -/
def calculateThresholds (data : List ℚ) : Fin 5 → ℚ :=
  Function.update (rawThresholds data) 2 0

/-- `_map_return_to_state` (`probability_analyzer.py` lines 64-84):
chained comparisons against the five thresholds, producing a state 0-5. -/
def mapReturnToState (th : Fin 5 → ℚ) (ret : ℚ) : Fin 6 :=
  if ret ≤ th 0 then 0
  else if ret ≤ th 1 then 1
  else if ret ≤ th 2 then 2
  else if ret ≤ th 3 then 3
  else if ret ≤ th 4 then 4
  else 5

/-- The state labels `STATE_LABELS` of `probability_analyzer.py`. -/
def STATE_LABELS : Fin 6 → String := !["大跌", "中跌", "小跌", "小涨", "中涨", "大涨"]

/-- `prev_state1 * 6 + prev_state2`: the combined-state encoding used by the
second-order matrix (`probability_analyzer.py` line 163). -/
def combineStates (s1 s2 : Fin 6) : Fin 36 :=
  ⟨s1.val * 6 + s2.val, by omega⟩

/-- Number of adjacent transitions `i → j` in a state sequence
(the counting loop of `create_first_order_matrix`, lines 113-116). -/
def count1 (s : List (Fin 6)) (i j : Fin 6) : ℕ :=
  (s.zip s.tail).countP (fun p => decide (p.1 = i) && decide (p.2 = j))

/-- Number of adjacent transitions out of state `i`. -/
def rowCount1 (s : List (Fin 6)) (i : Fin 6) : ℕ :=
  (s.zip s.tail).countP (fun p => decide (p.1 = i))

/-- The consecutive state triples `((s i, s (i+1)), s (i+2))` walked by the
counting loop of `create_second_order_matrix` (lines 157-164). -/
def triples (s : List (Fin 6)) : List ((Fin 6 × Fin 6) × Fin 6) :=
  (s.zip s.tail).zip s.tail.tail

/-- Number of triples whose combined previous-state pair encodes to `r` and
whose current state is `j`. -/
def count2 (s : List (Fin 6)) (r : Fin 36) (j : Fin 6) : ℕ :=
  (triples s).countP (fun p => decide (combineStates p.1.1 p.1.2 = r) && decide (p.2 = j))

/-- Number of triples whose combined previous-state pair encodes to `r`. -/
def rowCount2 (s : List (Fin 6)) (r : Fin 36) : ℕ :=
  (triples s).countP (fun p => decide (combineStates p.1.1 p.1.2 = r))

/-- Row normalisation of the 6x6 count matrix: rows are divided by their sum,
with zero sums replaced by 1 first (`row_sums[row_sums == 0] = 1`,
`probability_analyzer.py` lines 118-121). -/
def firstOrderMatrix (s : List (Fin 6)) (i j : Fin 6) : ℚ :=
  (count1 s i j : ℚ) / (if rowCount1 s i = 0 then 1 else (rowCount1 s i : ℚ))

/-- Row normalisation of the 36x6 count matrix (lines 166-169). -/
def secondOrderMatrix (s : List (Fin 6)) (r : Fin 36) (j : Fin 6) : ℚ :=
  (count2 s r j : ℚ) / (if rowCount2 s r = 0 then 1 else (rowCount2 s r : ℚ))

/-- `create_first_order_matrix` (`probability_analyzer.py` lines 86-123):
slice the window, map returns to states, count adjacent transitions and
row-normalise.  Returns the matrix together with the state sequence. -/
def createFirstOrderMatrix (data : List ℚ) (th : Fin 5 → ℚ) (windowSize : ℕ)
    (includeToday : Bool) : (Fin 6 → Fin 6 → ℚ) × List (Fin 6) :=
  let states := (recentData data windowSize includeToday).map (mapReturnToState th)
  (firstOrderMatrix states, states)

/-- `create_second_order_matrix` (lines 125-171): as above over triples, with
an all-zero 36x6 matrix returned when fewer than 3 states are available. -/
def createSecondOrderMatrix (data : List ℚ) (th : Fin 5 → ℚ) (windowSize : ℕ)
    (includeToday : Bool) : (Fin 36 → Fin 6 → ℚ) × List (Fin 6) :=
  let states := (recentData data windowSize includeToday).map (mapReturnToState th)
  (if states.length < 3 then fun _ _ => 0 else secondOrderMatrix states, states)

/-- The all-zero probability vector `np.zeros(6)`. -/
def zeroVec : Fin 6 → ℚ := fun _ => 0

/-- `_predict_with_first_order_matrix` (lines 173-192): `None` or an
out-of-range state yields the all-zero vector; a valid state returns the
matrix row, paired with the state actually used. -/
def predictWithFirstOrderMatrix (matrix : Fin 6 → Fin 6 → ℚ)
    (currentState : Option ℤ) : (Fin 6 → ℚ) × Option ℤ :=
  match currentState with
  | Option.none => (zeroVec, Option.none)
  | Option.some s =>
    if h : 0 ≤ s ∧ s ≤ 5 then (matrix ⟨s.toNat, by omega⟩, Option.some s)
    else (zeroVec, Option.none)

/-- The possible inputs of `_predict_with_second_order_matrix`: `None`, a
non-pair value, or a pair of (arbitrary) integers. -/
inductive SecondOrderInput : Type
  | noneInput : SecondOrderInput
  | malformed : SecondOrderInput
  | pair (s1 s2 : ℤ) : SecondOrderInput

/-- `_predict_with_second_order_matrix` (lines 194-219): `None`, a non-pair
or an out-of-range component yields the all-zero vector; a valid pair
returns row `s1*6+s2`. -/
def predictWithSecondOrderMatrix (matrix : Fin 36 → Fin 6 → ℚ)
    (currentState : SecondOrderInput) : (Fin 6 → ℚ) × Option (ℤ × ℤ) :=
  match currentState with
  | SecondOrderInput.noneInput => (zeroVec, Option.none)
  | SecondOrderInput.malformed => (zeroVec, Option.none)
  | SecondOrderInput.pair s1 s2 =>
    if h : 0 ≤ s1 ∧ s1 ≤ 5 ∧ 0 ≤ s2 ∧ s2 ≤ 5 then
      (matrix ⟨(s1 * 6 + s2).toNat, by omega⟩, Option.some (s1, s2))
    else (zeroVec, Option.none)

/-- The alert-level block of `analyze_today`
(`probability_analyzer.py` lines 263-270). -/
def alertLevelOf (firstOrderProb secondOrderProb : ℚ) : String :=
  if firstOrderProb = 0 ∧ secondOrderProb = 0 then "strong"
  else if firstOrderProb = 0 ∨ secondOrderProb = 0 then "normal"
  else "none"

/-- The result dictionary built by `analyze_today` (lines 272-282). -/
structure TodayResult : Type where
  todayReturn : ℚ
  todayState : Fin 6
  todayStateLabel : String
  firstOrderProbs : Fin 6 → ℚ
  secondOrderProbs : Fin 6 → ℚ
  alertLevel : String
  firstOrderProb : ℚ
  secondOrderProb : ℚ
deriving DecidableEq

/-- `analyze_today` (`probability_analyzer.py` lines 221-284): thresholds from
the full history, matrices built excluding today, probability of today's
realized state read off both predictions, alert level derived from the two
probabilities.  `none` models the `IndexError` raised on an empty history
(`values[-1]`). -/
def analyzeToday (data : List ℚ) : Option TodayResult :=
  let th := calculateThresholds data
  match data.getLast? with
  | Option.none => Option.none
  | Option.some todayReturn =>
    let todayState := mapReturnToState th todayReturn
    let p1 := createFirstOrderMatrix data th 60 false
    let firstOrderProbs : Fin 6 → ℚ :=
      match p1.2.getLast? with
      | Option.some yesterdayState =>
        (predictWithFirstOrderMatrix p1.1 (Option.some (yesterdayState.val : ℤ))).1
      | Option.none => zeroVec
    let p2 := createSecondOrderMatrix data th 360 false
    let secondOrderProbs : Fin 6 → ℚ :=
      if 2 ≤ p2.2.length then
        (predictWithSecondOrderMatrix p2.1
          (SecondOrderInput.pair ((p2.2.getD (p2.2.length - 2) 0).val : ℤ)
            ((p2.2.getD (p2.2.length - 1) 0).val : ℤ))).1
      else zeroVec
    let firstOrderProb := firstOrderProbs todayState
    let secondOrderProb := secondOrderProbs todayState
    Option.some
      { todayReturn := todayReturn
        todayState := todayState
        todayStateLabel := STATE_LABELS todayState
        firstOrderProbs := firstOrderProbs
        secondOrderProbs := secondOrderProbs
        alertLevel := alertLevelOf firstOrderProb secondOrderProb
        firstOrderProb := firstOrderProb
        secondOrderProb := secondOrderProb }

/-- The result dictionary built by `predict_tomorrow` (lines 322-328). -/
structure TomorrowResult : Type where
  currentState : Fin 6
  currentStateLabel : String
  firstOrderProbs : Fin 6 → ℚ
  secondOrderProbs : Fin 6 → ℚ
deriving DecidableEq

/-- `predict_tomorrow` (`probability_analyzer.py` lines 286-330): matrices
built including today; with an empty first-order state sequence the default
state 3 is used and the first-order probabilities stay all-zero.  Total: no
input makes it raise. -/
def predictTomorrow (data : List ℚ) : TomorrowResult :=
  let th := calculateThresholds data
  let p1 := createFirstOrderMatrix data th 60 true
  let firstPart : (Fin 6 → ℚ) × Fin 6 :=
    match p1.2.getLast? with
    | Option.some currentState =>
      ((predictWithFirstOrderMatrix p1.1 (Option.some (currentState.val : ℤ))).1, currentState)
    | Option.none => (zeroVec, 3)
  let p2 := createSecondOrderMatrix data th 360 true
  let secondOrderProbs : Fin 6 → ℚ :=
    if 2 ≤ p2.2.length then
      (predictWithSecondOrderMatrix p2.1
        (SecondOrderInput.pair ((p2.2.getD (p2.2.length - 2) 0).val : ℤ)
          ((p2.2.getD (p2.2.length - 1) 0).val : ℤ))).1
    else zeroVec
  { currentState := firstPart.2
    currentStateLabel := STATE_LABELS firstPart.2
    firstOrderProbs := firstPart.1
    secondOrderProbs := secondOrderProbs }

/-- `np.linspace(start, stop, num)`: `num` evenly spaced points from `start`
to `stop`, endpoints included (a single point is `start`). -/
def npLinspace (start stop : ℚ) (num : ℕ) : List ℚ :=
  if num = 1 then [start]
  else (List.range num).map
    (fun (i : ℕ) => start + (stop - start) * (i : ℚ) / ((num : ℚ) - 1))

/-- The model `f(x) = a*x + (b*x + c)*sin(k*x + q) + d` of
`HarmonicAnalyzer.objective_function` (`harmonic_analyzer.py` lines 52-56),
parametric in the sine function. -/
def objectiveFunction (sinF : ℚ → ℚ) (a b c k q d x : ℚ) : ℚ :=
  a * x + (b * x + c) * sinF (k * x + q) + d

/-- The abscissa grid `x = np.linspace(0, len(df), len(df))` used by
`HarmonicAnalyzer.analyze` (line 189) and `_prepare_plot_data` (line 60). -/
def harmonicXGrid (n : ℕ) : List ℚ :=
  npLinspace 0 (n : ℚ) n

/-- The `(x_i, close_i)` pairs handed to `curve_fit(objective_function, x, y)`
(line 198): grid point `i` is matched against the close at position `i`. -/
def harmonicFitPoints (closes : List ℚ) : List (ℚ × ℚ) :=
  (harmonicXGrid closes.length).zip closes

/-- Sum of squared residuals minimised by `curve_fit` over those pairs. -/
def sumSquaredResiduals (sinF : ℚ → ℚ) (a b c k q d : ℚ) (pts : List (ℚ × ℚ)) : ℚ :=
  (pts.map (fun p => (p.2 - objectiveFunction sinF a b c k q d p.1) ^ 2)).sum

/-- The per-run report assembled by `run_daily_analysis` when every analysis
succeeds (results abstracted to one rational each). -/
structure DailyReport : Type where
  probability : ℚ
  fx : ℚ
  gold : ℚ
  fabo : ℚ
deriving DecidableEq

/-- What `run_daily_analysis` ends up emailing: the full report via
`send_analysis_email`, or an error notice via `send_error_email`. -/
inductive EmailOutcome : Type
  | reportEmail (r : DailyReport) : EmailOutcome
  | errorEmail (msg : String) : EmailOutcome
deriving DecidableEq

/-- `run_daily_analysis` (`main_scheduler.py` lines 176-199): the five
analyses run sequentially inside a single `try`; the first raised error
jumps to the `except` branch, which sends only an error-notice email.  Each
analysis is an `Except` value (`Except.error` models a raised exception);
the returned list names the analyses that were actually attempted. -/
def runDailyAnalysis (harmonic probability fx gold fabo : Except String ℚ) :
    List String × EmailOutcome :=
  match harmonic with
  | Except.error e => (["harmonic"], EmailOutcome.errorEmail e)
  | Except.ok _ =>
    match probability with
    | Except.error e => (["harmonic", "probability"], EmailOutcome.errorEmail e)
    | Except.ok p =>
      match fx with
      | Except.error e => (["harmonic", "probability", "fx"], EmailOutcome.errorEmail e)
      | Except.ok f =>
        match gold with
        | Except.error e =>
          (["harmonic", "probability", "fx", "gold"], EmailOutcome.errorEmail e)
        | Except.ok g =>
          match fabo with
          | Except.error e =>
            (["harmonic", "probability", "fx", "gold", "fabo"], EmailOutcome.errorEmail e)
          | Except.ok b =>
            (["harmonic", "probability", "fx", "gold", "fabo"],
              EmailOutcome.reportEmail ⟨p, f, g, b⟩)

/-- A nontrivial 6x6 matrix used to witness the predictor contract. -/
def exampleMatrix1 : Fin 6 → Fin 6 → ℚ := fun i j => (i.val : ℚ) * 6 + (j.val : ℚ)

/-- A nontrivial 36x6 matrix used to witness the predictor contract. -/
def exampleMatrix2 : Fin 36 → Fin 6 → ℚ := fun r j => (r.val : ℚ) * 10 + (j.val : ℚ)

/-- The value of `analyze_today` on the one-element history `[0]`: no window
data, so both probability vectors are all-zero and the alert is strong. -/
def exampleTodayResult : TodayResult :=
  { todayReturn := 0
    todayState := 0
    todayStateLabel := "大跌"
    firstOrderProbs := zeroVec
    secondOrderProbs := zeroVec
    alertLevel := "strong"
    firstOrderProb := 0
    secondOrderProb := 0 }

lemma calculateThresholds_apply_two (data : List ℚ) : calculateThresholds data 2 = 0 := by
  simp [calculateThresholds]

lemma alertLevelOf_cases (p q : ℚ) :
    (alertLevelOf p q = "strong" ↔ (p = 0 ∧ q = 0)) ∧
    (alertLevelOf p q = "normal" ↔ ((p = 0 ∨ q = 0) ∧ ¬ (p = 0 ∧ q = 0))) ∧
    (alertLevelOf p q = "none" ↔ (p ≠ 0 ∧ q ≠ 0)) := by
  unfold alertLevelOf
  by_cases hp : p = 0 <;> by_cases hq : q = 0 <;> simp [hp, hq]

/-- C9: the thresholds vector computed by `_calculate_thresholds` always has
`thresholds[2] = 0`, whatever the input history (hence whatever the empirical
median); every state mapping in a run reads its thresholds from this
function. -/
theorem thresholds_mid_always_zero (data : List ℚ) : calculateThresholds data 2 = 0 :=
  calculateThresholds_apply_two data

/-- C8: `_map_return_to_state` is non-decreasing in the return for every
thresholds vector (in particular for every vector produced by
`_calculate_thresholds`). -/
theorem mapReturnToState_monotone (th : Fin 5 → ℚ) (r1 r2 : ℚ) (h : r1 ≤ r2) :
    mapReturnToState th r1 ≤ mapReturnToState th r2 := by
  unfold mapReturnToState
  split_ifs <;>
    first
      | decide
      | exact absurd (le_trans h (by assumption)) (by assumption)

/-- C8 witness: monotonicity at a concrete thresholds vector and pair of
returns. -/
theorem mapReturnToState_monotone_witness :
    mapReturnToState (fun _ => 0) 0 ≤ mapReturnToState (fun _ => 0) 1 :=
  mapReturnToState_monotone (fun _ => 0) 0 1 (by decide)

/-- C3 counterexample: on the history `[1, 1, 1, 1, 1]` (all returns
positive) the design thresholds are `[1, 1, 0, 1, 1]`, and the positive
return `1/2` is mapped to state 0, so "state in {0,1,2} iff return ≤ 0"
fails. -/
theorem state_sign_counterexample :
    ¬ ((mapReturnToState (calculateThresholds [1, 1, 1, 1, 1]) (1/2) ≤ 2) ↔
        ((1/2 : ℚ) ≤ 0)) := by
  decide

/-- C3 amended: when the empirical 10th and 25th percentile thresholds are
non-positive (which the design does not force), the state mapping satisfies
state in {0,1,2} iff return ≤ 0 and state in {3,4,5} iff return > 0. -/
theorem state_sign_amended (data : List ℚ) (r : ℚ)
    (h0 : calculateThresholds data 0 ≤ 0) (h1 : calculateThresholds data 1 ≤ 0) :
    ((mapReturnToState (calculateThresholds data) r ≤ 2) ↔ r ≤ 0) ∧
    ((3 ≤ mapReturnToState (calculateThresholds data) r) ↔ 0 < r) := by
  have h2 : calculateThresholds data 2 = 0 := calculateThresholds_apply_two data
  unfold mapReturnToState
  rw [h2]
  split_ifs <;>
    refine ⟨⟨fun hg => ?_, fun hg => ?_⟩, ⟨fun hg => ?_, fun hg => ?_⟩⟩ <;>
    first
      | decide
      | linarith
      | exact absurd hg (by decide)

/-- C3 witness: on the history `[-2, -1, 0, 1, 2]` the 10th and 25th
percentiles are negative and the sign/state correspondence holds at `r = 1`. -/
theorem state_sign_amended_witness :
    ((mapReturnToState (calculateThresholds [-2, -1, 0, 1, 2]) 1 ≤ 2) ↔ (1 : ℚ) ≤ 0) ∧
    ((3 ≤ mapReturnToState (calculateThresholds [-2, -1, 0, 1, 2]) 1) ↔ (0 : ℚ) < 1) :=
  state_sign_amended [-2, -1, 0, 1, 2] 1 (by decide) (by decide)

/-- C4 counterexample: on a 2-element series with window 2 the
`include_today=False` slice clamps at the start and yields only one return,
not the claimed `W = 2` returns preceding the most recent element. -/
theorem windowing_counterexample :
    ((createFirstOrderMatrix [1, 2] (fun _ => 0) 2 false).2).length ≠ 2 := by
  decide

/-- C4 amended: when `n ≥ W + 1`, the `include_today=False` window is exactly
elements `n-W-1 .. n-2` (the `W` returns immediately preceding the most
recent); when `1 ≤ W ≤ n`, the `include_today=True` window is the last `W`
returns; both estimators build their state sequences from these windows.
For shorter series the Python slice clamps at the start of the series. -/
theorem windowing_amended (data : List ℚ) (th : Fin 5 → ℚ) (W : ℕ) :
    (W + 1 ≤ data.length →
      recentData data W false = (data.take (data.length - 1)).drop (data.length - W - 1) ∧
      (recentData data W false).length = W) ∧
    (1 ≤ W → W ≤ data.length →
      recentData data W true = data.drop (data.length - W) ∧
      (recentData data W true).length = W) ∧
    (createFirstOrderMatrix data th W false).2 =
      (recentData data W false).map (mapReturnToState th) ∧
    (createSecondOrderMatrix data th W false).2 =
      (recentData data W false).map (mapReturnToState th) ∧
    (createFirstOrderMatrix data th W true).2 =
      (recentData data W true).map (mapReturnToState th) := by
  refine ⟨fun h => ?_, fun hW hn => ?_, rfl, rfl, rfl⟩
  · have e1 : pyIdx data.length (-1) = data.length - 1 := by
      unfold pyIdx; rw [if_pos (by omega)]; omega
    have e2 : pyIdx data.length (-(W : ℤ) - 1) = data.length - W - 1 := by
      unfold pyIdx; rw [if_pos (by omega)]; omega
    have key : recentData data W false =
        (data.take (data.length - 1)).drop (data.length - W - 1) := by
      show (data.take (pyIdx data.length (-1))).drop (pyIdx data.length (-(W : ℤ) - 1)) = _
      rw [e1, e2]
    refine ⟨key, ?_⟩
    rw [key, List.length_drop, List.length_take]
    omega
  · have e3 : pyIdx data.length (-(W : ℤ)) = data.length - W := by
      unfold pyIdx; rw [if_pos (by omega)]; omega
    have e4 : pyIdx data.length (data.length : ℤ) = data.length := by
      unfold pyIdx; rw [if_neg (by omega)]; omega
    have key : recentData data W true = data.drop (data.length - W) := by
      show (data.take (pyIdx data.length (data.length : ℤ))).drop
          (pyIdx data.length (-(W : ℤ))) = _
      rw [e3, e4, List.take_length]
    refine ⟨key, ?_⟩
    rw [key, List.length_drop]
    omega

/-- C4 witness: both window shapes evaluated on the concrete series
`[1, 2, 3]` with `W = 2`. -/
theorem windowing_amended_witness :
    (recentData [1, 2, 3] 2 false).length = 2 ∧ (recentData [1, 2, 3] 2 true).length = 2 :=
  ⟨((windowing_amended [1, 2, 3] (fun _ => 0) 2).1 (by decide)).2,
    ((windowing_amended [1, 2, 3] (fun _ => 0) 2).2.1 (by decide) (by decide)).2⟩

lemma harmonicXGrid_length (n : ℕ) : (harmonicXGrid n).length = n := by
  unfold harmonicXGrid npLinspace
  split_ifs with h
  · rw [h]; rfl
  · rw [List.length_map, List.length_range]

lemma harmonicXGrid_getD (n i : ℕ) (h2 : 2 ≤ n) (hi : i < n) :
    (harmonicXGrid n).getD i 0 = (n : ℚ) * (i : ℚ) / ((n : ℚ) - 1) := by
  unfold harmonicXGrid npLinspace
  rw [if_neg (by omega)]
  have hl : i < ((List.range n).map
      (fun (j : ℕ) => (0 : ℚ) + ((n : ℚ) - 0) * (j : ℚ) / ((n : ℚ) - 1))).length := by
    rw [List.length_map, List.length_range]; exact hi
  rw [List.getD_eq_getElem _ _ hl, List.getElem_map, List.getElem_range]
  ring

/-- C6 counterexample: for three observations the abscissa grid is
`np.linspace(0, 3, 3) = [0, 3/2, 3]`, not the integer indices `[0, 1, 2]`
claimed by the specification. -/
theorem harmonic_grid_counterexample :
    harmonicXGrid 3 ≠ (List.range 3).map (fun i => (i : ℚ)) ∧
    harmonicXGrid 3 = [0, 3/2, 3] := by
  constructor <;> decide

/-- C6 amended: with `n ≥ 2` observations the fitter matches the model
value at `x_i = n * i / (n - 1)` (the points of `np.linspace(0, n, n)`,
equally spaced from 0 to `n` inclusive — not the integer index `i`) against
the close at position `i`. -/
theorem harmonic_grid_amended (closes : List ℚ) (i : ℕ)
    (h2 : 2 ≤ closes.length) (hi : i < closes.length) :
    (harmonicFitPoints closes).length = closes.length ∧
    (harmonicFitPoints closes).getD i (0, 0) =
      ((closes.length : ℚ) * (i : ℚ) / ((closes.length : ℚ) - 1), closes.getD i 0) := by
  have hg := harmonicXGrid_length closes.length
  have hlen : (harmonicFitPoints closes).length = closes.length := by
    simp [harmonicFitPoints, hg]
  refine ⟨hlen, ?_⟩
  have hi' : i < (harmonicFitPoints closes).length := by rw [hlen]; exact hi
  have hgi : i < (harmonicXGrid closes.length).length := by rw [hg]; exact hi
  rw [List.getD_eq_getElem _ _ hi']
  simp only [harmonicFitPoints]
  rw [List.getElem_zip]
  rw [Prod.mk.injEq]
  refine ⟨?_, (List.getD_eq_getElem _ _ hi).symm⟩
  rw [← List.getD_eq_getElem _ (0 : ℚ) hgi]
  exact harmonicXGrid_getD closes.length i h2 hi

/-- C6 witness: the fit pair at position 1 of the 3-observation series
`[5, 6, 7]` is `(3/2, 6)`. -/
theorem harmonic_grid_amended_witness :
    (harmonicFitPoints [5, 6, 7]).length = 3 ∧
    (harmonicFitPoints [5, 6, 7]).getD 1 (0, 0) =
      ((([5, 6, 7] : List ℚ).length : ℚ) * (1 : ℚ) /
          ((([5, 6, 7] : List ℚ).length : ℚ) - 1),
        ([5, 6, 7] : List ℚ).getD 1 0) :=
  harmonic_grid_amended [5, 6, 7] 1 (by decide) (by decide)

/-- C7: evaluation of `run_daily_analysis` when the harmonic analysis raises
and every other analysis would succeed.  The single `try/except` makes the
first failure abort the run: only the harmonic analysis is attempted, the
remaining four analyses never run, and an error-notice email is sent instead
of the report email with the surviving results. -/
theorem runDailyAnalysis_aborts_on_harmonic_failure :
    runDailyAnalysis (Except.error "curve_fit failed to converge")
      (Except.ok 1) (Except.ok 2) (Except.ok 3) (Except.ok 4) =
      (["harmonic"], EmailOutcome.errorEmail "curve_fit failed to converge") :=
  rfl

/-- C10: when the first-order state sequence is empty, `predict_tomorrow`
still returns (the embedding is total): current state defaults to 3 with the
small-up label, and the first-order probability vector is all-zero. -/
theorem predictTomorrow_empty_default (data : List ℚ)
    (h : (createFirstOrderMatrix data (calculateThresholds data) 60 true).2 = []) :
    (predictTomorrow data).currentState = 3 ∧
    (predictTomorrow data).currentStateLabel = "小涨" ∧
    (predictTomorrow data).firstOrderProbs = zeroVec := by
  have hnone : (createFirstOrderMatrix data (calculateThresholds data) 60 true).2.getLast? =
      Option.none := by rw [h]; rfl
  simp only [predictTomorrow]
  rw [hnone]
  exact ⟨rfl, rfl, rfl⟩

/-- C10 witness: the empty history has an empty state sequence and yields the
default prediction. -/
theorem predictTomorrow_empty_default_witness :
    (predictTomorrow []).currentState = 3 ∧
    (predictTomorrow []).currentStateLabel = "小涨" ∧
    (predictTomorrow []).firstOrderProbs = zeroVec :=
  predictTomorrow_empty_default [] rfl

/-- C5: the predictor contract.  `None`, malformed or out-of-range inputs
produce the all-zero vector (the embeddings are total functions, so no input
raises); a valid state returns row `matrix[s]` verbatim and a valid pair
returns row `matrix[s1*6+s2]`. -/
theorem predictor_contract (m1 : Fin 6 → Fin 6 → ℚ) (m2 : Fin 36 → Fin 6 → ℚ) :
    (predictWithFirstOrderMatrix m1 Option.none).1 = zeroVec ∧
    (∀ s : ℤ, ¬ (0 ≤ s ∧ s ≤ 5) →
      (predictWithFirstOrderMatrix m1 (Option.some s)).1 = zeroVec) ∧
    (∀ s : Fin 6, (predictWithFirstOrderMatrix m1 (Option.some (s.val : ℤ))).1 = m1 s) ∧
    (predictWithSecondOrderMatrix m2 SecondOrderInput.noneInput).1 = zeroVec ∧
    (predictWithSecondOrderMatrix m2 SecondOrderInput.malformed).1 = zeroVec ∧
    (∀ s1 s2 : ℤ, ¬ (0 ≤ s1 ∧ s1 ≤ 5 ∧ 0 ≤ s2 ∧ s2 ≤ 5) →
      (predictWithSecondOrderMatrix m2 (SecondOrderInput.pair s1 s2)).1 = zeroVec) ∧
    (∀ s1 s2 : Fin 6, (predictWithSecondOrderMatrix m2
      (SecondOrderInput.pair (s1.val : ℤ) (s2.val : ℤ))).1 = m2 (combineStates s1 s2)) := by
  refine ⟨rfl, fun s hs => ?_, fun s => ?_, rfl, rfl, fun s1 s2 hs => ?_, fun s1 s2 => ?_⟩
  · simp only [predictWithFirstOrderMatrix]
    rw [dif_neg hs]
  · have hlt := s.isLt
    simp only [predictWithFirstOrderMatrix]
    rw [dif_pos (by omega : (0 : ℤ) ≤ (s.val : ℤ) ∧ (s.val : ℤ) ≤ 5)]
    exact congrArg m1 (Fin.ext (by simp))
  · simp only [predictWithSecondOrderMatrix]
    rw [dif_neg hs]
  · have hlt1 := s1.isLt
    have hlt2 := s2.isLt
    simp only [predictWithSecondOrderMatrix]
    rw [dif_pos (by omega :
      (0 : ℤ) ≤ (s1.val : ℤ) ∧ (s1.val : ℤ) ≤ 5 ∧ (0 : ℤ) ≤ (s2.val : ℤ) ∧ (s2.val : ℤ) ≤ 5)]
    exact congrArg m2 (Fin.ext (by simp only [combineStates]; omega))

/-- C5 witness: out-of-range inputs on concrete matrices yield the all-zero
vector. -/
theorem predictor_contract_witness :
    (predictWithFirstOrderMatrix exampleMatrix1 (Option.some 7)).1 = zeroVec ∧
    (predictWithSecondOrderMatrix exampleMatrix2 (SecondOrderInput.pair (-1) 0)).1 = zeroVec :=
  ⟨(predictor_contract exampleMatrix1 exampleMatrix2).2.1 7 (by omega),
    (predictor_contract exampleMatrix1 exampleMatrix2).2.2.2.2.2.1 (-1) 0 (by omega)⟩

lemma countP_and_sum {α : Type} (l : List (α × Fin 6)) (q : α → Bool) :
    ∑ j : Fin 6, l.countP (fun p => q p.1 && decide (p.2 = j)) =
      l.countP (fun p => q p.1) := by
  induction l with
  | nil => simp
  | cons x t ih =>
    simp only [List.countP_cons]
    rw [Finset.sum_add_distrib, ih]
    congr 1
    by_cases hq : q x.1
    · simp only [hq, Bool.true_and, decide_eq_true_eq]
      rw [Finset.sum_ite_eq]
      simp
    · simp [hq]

lemma count1_sum (s : List (Fin 6)) (i : Fin 6) :
    ∑ j : Fin 6, count1 s i j = rowCount1 s i :=
  countP_and_sum (s.zip s.tail) (fun a => decide (a = i))

lemma count2_sum (s : List (Fin 6)) (r : Fin 36) :
    ∑ j : Fin 6, count2 s r j = rowCount2 s r :=
  countP_and_sum (triples s) (fun a => decide (combineStates a.1 a.2 = r))

lemma firstOrderMatrix_zero_row (s : List (Fin 6)) (i : Fin 6)
    (h : rowCount1 s i = 0) : ∀ j, firstOrderMatrix s i j = 0 := by
  intro j
  have hsum : ∑ j' : Fin 6, count1 s i j' = 0 := by rw [count1_sum, h]
  have hc : count1 s i j = 0 :=
    Finset.sum_eq_zero_iff.mp hsum j (Finset.mem_univ j)
  simp [firstOrderMatrix, hc]

lemma firstOrderMatrix_row_sum_one (s : List (Fin 6)) (i : Fin 6)
    (h : rowCount1 s i ≠ 0) : ∑ j : Fin 6, firstOrderMatrix s i j = 1 := by
  unfold firstOrderMatrix
  rw [if_neg h, ← Finset.sum_div, ← Nat.cast_sum, count1_sum]
  exact div_self (by exact_mod_cast h)

lemma secondOrderMatrix_zero_row (s : List (Fin 6)) (r : Fin 36)
    (h : rowCount2 s r = 0) : ∀ j, secondOrderMatrix s r j = 0 := by
  intro j
  have hsum : ∑ j' : Fin 6, count2 s r j' = 0 := by rw [count2_sum, h]
  have hc : count2 s r j = 0 :=
    Finset.sum_eq_zero_iff.mp hsum j (Finset.mem_univ j)
  simp [secondOrderMatrix, hc]

lemma secondOrderMatrix_row_sum_one (s : List (Fin 6)) (r : Fin 36)
    (h : rowCount2 s r ≠ 0) : ∑ j : Fin 6, secondOrderMatrix s r j = 1 := by
  unfold secondOrderMatrix
  rw [if_neg h, ← Finset.sum_div, ← Nat.cast_sum, count2_sum]
  exact div_self (by exact_mod_cast h)

/-- C2: every row of an estimated transition matrix sums to exactly 1 or
exactly 0 (so in particular within `1e-9` of one of them, the rationals
being exact), and a row with zero observed transitions stays all-zero
instead of being replaced by a fallback distribution. -/
theorem transition_matrix_row_sums (data : List ℚ) (th : Fin 5 → ℚ) (W : ℕ)
    (inc : Bool) (i : Fin 6) (r : Fin 36) :
    (∑ j : Fin 6, (createFirstOrderMatrix data th W inc).1 i j = 1 ∨
      ∑ j : Fin 6, (createFirstOrderMatrix data th W inc).1 i j = 0) ∧
    (rowCount1 ((recentData data W inc).map (mapReturnToState th)) i = 0 →
      ∀ j, (createFirstOrderMatrix data th W inc).1 i j = 0) ∧
    (∑ j : Fin 6, (createSecondOrderMatrix data th W inc).1 r j = 1 ∨
      ∑ j : Fin 6, (createSecondOrderMatrix data th W inc).1 r j = 0) ∧
    (rowCount2 ((recentData data W inc).map (mapReturnToState th)) r = 0 →
      ∀ j, (createSecondOrderMatrix data th W inc).1 r j = 0) := by
  set s := (recentData data W inc).map (mapReturnToState th) with hs
  have h1 : (createFirstOrderMatrix data th W inc).1 = firstOrderMatrix s := rfl
  have h2 : (createSecondOrderMatrix data th W inc).1 =
      if s.length < 3 then fun _ _ => 0 else secondOrderMatrix s := rfl
  rw [h1, h2]
  refine ⟨?_, ?_, ?_, ?_⟩
  · by_cases h : rowCount1 s i = 0
    · exact Or.inr (Finset.sum_eq_zero (fun j _ => firstOrderMatrix_zero_row s i h j))
    · exact Or.inl (firstOrderMatrix_row_sum_one s i h)
  · exact fun h => firstOrderMatrix_zero_row s i h
  · by_cases hlen : s.length < 3
    · rw [if_pos hlen]; exact Or.inr (by simp)
    · rw [if_neg hlen]
      by_cases h : rowCount2 s r = 0
      · exact Or.inr (Finset.sum_eq_zero (fun j _ => secondOrderMatrix_zero_row s r h j))
      · exact Or.inl (secondOrderMatrix_row_sum_one s r h)
  · intro h
    by_cases hlen : s.length < 3
    · rw [if_pos hlen]; intro j; rfl
    · rw [if_neg hlen]; exact secondOrderMatrix_zero_row s r h

/-- C2 witness: on a one-element window there are no transitions, and the
zero-count rows of both matrices are left at zero. -/
theorem transition_matrix_row_sums_witness :
    (createFirstOrderMatrix [1] (fun _ => 0) 1 true).1 0 0 = 0 ∧
    (createSecondOrderMatrix [1] (fun _ => 0) 1 true).1 0 0 = 0 :=
  ⟨(transition_matrix_row_sums [1] (fun _ => 0) 1 true 0 0).2.1 (by decide) 0,
    (transition_matrix_row_sums [1] (fun _ => 0) 1 true 0 0).2.2.2 (by decide) 0⟩

/-- C1: for every input history (and hence every pair of predicted
probability vectors computed in the run), `analyze_today` classifies the
alert exactly from the two predicted probabilities of the realized state:
`strong` iff both are 0, `normal` iff exactly one is 0, `none` otherwise;
and the two probabilities it reports are the entries of the two predicted
vectors at today's state. -/
theorem analyzeToday_alert_classification (data : List ℚ) (res : TodayResult)
    (h : analyzeToday data = Option.some res) :
    (res.alertLevel = "strong" ↔ (res.firstOrderProb = 0 ∧ res.secondOrderProb = 0)) ∧
    (res.alertLevel = "normal" ↔
      ((res.firstOrderProb = 0 ∨ res.secondOrderProb = 0) ∧
        ¬ (res.firstOrderProb = 0 ∧ res.secondOrderProb = 0))) ∧
    (res.alertLevel = "none" ↔ (res.firstOrderProb ≠ 0 ∧ res.secondOrderProb ≠ 0)) ∧
    res.firstOrderProb = res.firstOrderProbs res.todayState ∧
    res.secondOrderProb = res.secondOrderProbs res.todayState := by
  cases hL : data.getLast? with
  | none => simp [analyzeToday, hL] at h
  | some t =>
    simp only [analyzeToday, hL, Option.some.injEq] at h
    subst h
    exact ⟨(alertLevelOf_cases _ _).1, (alertLevelOf_cases _ _).2.1,
      (alertLevelOf_cases _ _).2.2, rfl, rfl⟩

/-- C1 witness: the one-element history `[0]` has empty prediction windows,
both probabilities are 0, and the alert is strong. -/
theorem analyzeToday_alert_classification_witness :
    (exampleTodayResult.alertLevel = "strong" ↔
      (exampleTodayResult.firstOrderProb = 0 ∧ exampleTodayResult.secondOrderProb = 0)) ∧
    (exampleTodayResult.alertLevel = "normal" ↔
      ((exampleTodayResult.firstOrderProb = 0 ∨ exampleTodayResult.secondOrderProb = 0) ∧
        ¬ (exampleTodayResult.firstOrderProb = 0 ∧ exampleTodayResult.secondOrderProb = 0))) ∧
    (exampleTodayResult.alertLevel = "none" ↔
      (exampleTodayResult.firstOrderProb ≠ 0 ∧ exampleTodayResult.secondOrderProb ≠ 0)) ∧
    exampleTodayResult.firstOrderProb =
      exampleTodayResult.firstOrderProbs exampleTodayResult.todayState ∧
    exampleTodayResult.secondOrderProb =
      exampleTodayResult.secondOrderProbs exampleTodayResult.todayState :=
  analyzeToday_alert_classification [0] exampleTodayResult (by decide)
